import Mathlib

/-!
Verification of the CursorFocus pattern-matching core (`rules_generator.py`,
`analyzers.py`, `generator/patterns.py`) against its natural-language
specification.

The development shallowly embeds the code:
* a small backtracking regular-expression engine reproducing Python `re`
  semantics (leftmost match, alternation priority, greedy/lazy repetition,
  named and numbered captures, lookahead, word boundaries, MULTILINE-style
  anchors and DOTALL-style dot — the flags visible in `analyzers.py`,
  `re.MULTILINE | re.DOTALL`, since the compiling module `patterns_analyzer`
  is not part of the sources);
* the `PATTERNS` table of `generator/patterns.py`, transcribed rule by rule
  into regex ASTs, with each rule's named-capture table (name, Python group
  number);
* the analysis and aggregation routines of `rules_generator.py` and the
  module-level duplicates in `analyzers.py`, with Python's in-place mutation
  plus exceptions modelled as state-threading with an error flag (state is
  kept when an error escapes, as mutations persist in Python).
-/

namespace CF

/-! ## Regular-expression engine -/

/-- One item of a character class. -/
inductive CCItem where
  | ch (c : Char)
  | range (lo hi : Char)
  | word
  | space
  | digit
deriving DecidableEq

def CCItem.hit : CCItem → Char → Bool
  | .ch a, c => c == a
  | .range lo hi, c => decide (lo.val ≤ c.val) && decide (c.val ≤ hi.val)
  | .word, c => c.isAlphanum || c == '_'
  | .space, c => c == ' ' || c == '\t' || c == '\n' || c == '\r' || c == '\x0b' || c == '\x0c'
  | .digit, c => c.isDigit

/-- A character class: a list of items, possibly negated (`[^...]`). -/
structure CC where
  neg : Bool
  items : List CCItem
deriving DecidableEq

def CC.hit (cc : CC) (c : Char) : Bool :=
  let b := cc.items.any (fun it => it.hit c)
  if cc.neg then !b else b

/-- Regex AST. `grp` carries the Python group number. `look` is a
lookahead, positive or negative. `bol`/`eol` are `^`/`$` with MULTILINE
semantics; `wordB` is `\b`. `starL` is the lazy star. -/
inductive RE where
  | eps
  | cls (cc : CC)
  | seq (a b : RE)
  | alt (a b : RE)
  | star (r : RE)
  | starL (r : RE)
  | grp (i : Nat) (r : RE)
  | look (positive : Bool) (r : RE)
  | bol
  | eol
  | wordB
deriving DecidableEq

def cat : List RE → RE
  | [] => .eps
  | [r] => r
  | r :: rs => .seq r (cat rs)

def alts : List RE → RE
  | [] => .eps
  | [r] => r
  | r :: rs => .alt r (alts rs)

def lit (s : String) : RE := cat (s.toList.map (fun c => .cls ⟨false, [.ch c]⟩))

/-- `[abc]` — one of the given characters. -/
def chOf (s : String) : RE := .cls ⟨false, s.toList.map .ch⟩

/-- `[^abc]` — none of the given characters. -/
def chNot (s : String) : RE := .cls ⟨true, s.toList.map .ch⟩

def wordC : RE := .cls ⟨false, [.word]⟩
def spaceC : RE := .cls ⟨false, [.space]⟩

/-- `.` under DOTALL: any character. -/
def anyC : RE := .cls ⟨true, []⟩

def opt (r : RE) : RE := .alt r .eps
def plus (r : RE) : RE := .seq r (.star r)
def wsS : RE := .star spaceC
def wsP : RE := plus spaceC

abbrev Caps := List (Nat × String)
abbrev MRes := Option (Nat × Caps)

def setCap (caps : Caps) (i : Nat) (v : String) : Caps :=
  (i, v) :: caps.filter (fun p => p.1 != i)

def getCap (caps : Caps) (i : Nat) : Option String :=
  (caps.find? (fun p => p.1 == i)).map (fun p => p.2)

def charAt (s : List Char) (i : Nat) : Option Char := (s.drop i).head?

def sliceStr (s : List Char) (a b : Nat) : String := String.mk ((s.drop a).take (b - a))

def isWordChar (c : Char) : Bool := c.isAlphanum || c == '_'

/-- Backtracking matcher in continuation-passing style. Alternatives are
tried left first, greedy stars longest first, lazy stars shortest first,
exactly as Python's `re` resolves priority; the first successful global
continuation wins. `fuel` bounds the call nesting (AST depth plus one per
star iteration) and is passed generously by the wrappers below. -/
def mmatch (s : List Char) : Nat → RE → Nat → Caps → (Nat → Caps → MRes) → MRes
  | 0, _, _, _, _ => none
  | fuel+1, re, pos, caps, k =>
    match re with
    | .eps => k pos caps
    | .cls cc =>
      match charAt s pos with
      | some c => if cc.hit c then k (pos+1) caps else none
      | none => none
    | .seq a b => mmatch s fuel a pos caps (fun p cp => mmatch s fuel b p cp k)
    | .alt a b =>
      match mmatch s fuel a pos caps k with
      | some r => some r
      | none => mmatch s fuel b pos caps k
    | .star r =>
      match mmatch s fuel r pos caps (fun p cp =>
          if p ≤ pos then k p cp else mmatch s fuel (.star r) p cp k) with
      | some res => some res
      | none => k pos caps
    | .starL r =>
      match k pos caps with
      | some res => some res
      | none => mmatch s fuel r pos caps (fun p cp =>
          if p ≤ pos then none else mmatch s fuel (.starL r) p cp k)
    | .grp i r => mmatch s fuel r pos caps (fun p cp => k p (setCap cp i (sliceStr s pos p)))
    | .look true r =>
      match mmatch s fuel r pos caps (fun p cp => some (p, cp)) with
      | some (_, cp) => k pos cp
      | none => none
    | .look false r =>
      match mmatch s fuel r pos caps (fun p cp => some (p, cp)) with
      | some _ => none
      | none => k pos caps
    | .bol => if pos == 0 || charAt s (pos - 1) == some '\n' then k pos caps else none
    | .eol => if pos == s.length || charAt s pos == some '\n' then k pos caps else none
    | .wordB =>
      let wPrev := if pos == 0 then false else ((charAt s (pos - 1)).map isWordChar).getD false
      let wNext := ((charAt s pos).map isWordChar).getD false
      if wPrev != wNext then k pos caps else none

def FUEL (s : List Char) : Nat := 4096 * (s.length + 4)

/-- One match result: span, matched text (group 0), captures. -/
structure RMatch where
  mstart : Nat
  mend : Nat
  whole : String
  caps : Caps
deriving DecidableEq, Inhabited

def matchAt (re : RE) (s : List Char) (pos : Nat) : Option RMatch :=
  match mmatch s (FUEL s) re pos [] (fun p c => some (p, c)) with
  | some (p, c) => some ⟨pos, p, sliceStr s pos p, c⟩
  | none => none

def searchFrom (re : RE) (s : List Char) : Nat → Nat → Option RMatch
  | 0, _ => none
  | fuel+1, pos =>
    match matchAt re s pos with
    | some m => some m
    | none => if pos < s.length then searchFrom re s fuel (pos+1) else none

/-- `re.search`: the match at the leftmost position admitting one. -/
def rsearch (re : RE) (str : String) : Option RMatch :=
  searchFrom re str.toList (str.toList.length + 1) 0

def finditerFrom (re : RE) (s : List Char) : Nat → Nat → List RMatch
  | 0, _ => []
  | fuel+1, pos =>
    match searchFrom re s (s.length + 1 - pos) pos with
    | none => []
    | some m => m :: finditerFrom re s fuel (if m.mstart < m.mend then m.mend else m.mend + 1)

/-- `re.finditer`: non-overlapping leftmost matches, scanning resuming after
each match (one past it for a zero-width match). -/
def finditer (re : RE) (str : String) : List RMatch :=
  finditerFrom re str.toList (str.toList.length + 1) 0

/-- A compiled pattern: the AST plus its named-group table
(name, Python group number, in declaration order). -/
structure CPat where
  re : RE
  names : List (String × Nat)

/-- `match.group(i)`; group 0 is the whole match. An unexercised group
yields `none` (Python `None`). -/
def RMatch.group (m : RMatch) (i : Nat) : Option String :=
  if i == 0 then some m.whole else getCap m.caps i

/-- `match.groupdict()`: every declared named group, in declaration order. -/
def CPat.gdict (p : CPat) (m : RMatch) : List (String × Option String) :=
  p.names.map (fun ni => (ni.1, getCap m.caps ni.2))

/-- `match.group(name)`: raises (here `.error`) when the pattern declares
no group of that name, as Python does. -/
def CPat.groupN (p : CPat) (m : RMatch) (nm : String) : Except String (Option String) :=
  match p.names.find? (fun ni => ni.1 == nm) with
  | some ni => .ok (getCap m.caps ni.2)
  | none => .error ("no such group " ++ nm)

/-! ## The `PATTERNS` table of `generator/patterns.py`

Each rule is transcribed into an AST; group numbers follow Python's
numbering of capturing groups in textual order, so `match.group(1)` and a
named access through the `names` table agree with `re`. Quote, brace and
backtick characters are written with `\xNN` escapes. -/

/-- `[a-zA-Z0-9_\.]` -/
def modChar : RE := .cls ⟨false, [.range 'a' 'z', .range 'A' 'Z', .range '0' '9', .ch '_', .ch '.']⟩

/-- `['"]` -/
def quoteC : RE := chOf "\x27\x22"

/-- `PATTERNS['import']['python']`:
`^(?:from\s+(?P<module>[a-zA-Z0-9_\.]+)\s+import\s+(?P<imports>[^#\n]+)` `|`
`import\s+(?P<module2>[a-zA-Z0-9_\.]+(?:\s*,\s*[a-zA-Z0-9_\.]+)*))(?:\s*#[^\n]*)?$` -/
def importPython : CPat where
  re := cat [.bol,
    .alt
      (cat [lit "from", wsP, .grp 1 (plus modChar), wsP, lit "import", wsP,
            .grp 2 (plus (chNot "#\n"))])
      (cat [lit "import", wsP,
            .grp 3 (cat [plus modChar, .star (cat [wsS, lit ",", wsS, plus modChar])])]),
    opt (cat [wsS, lit "#", .star (chNot "\n")]), .eol]
  names := [("module", 1), ("imports", 2), ("module2", 3)]

/-- `PATTERNS['import']['web']`: alternation of
`import\s+.*?from\s+['"](?P<module>[^'"]+)['"]`,
`require\s*\(['"](?P<module2>[^'"]+)['"]\)`,
`import\s+(?:static\s+)?(?P<module3>[a-zA-Z0-9_\.]+(?:\.[*])?)`,
`require\s+['"](?P<module4>[^'"]+)['"]`,
`import\s+['"](?P<module5>[^'"]+)['"]` -/
def importWeb : CPat where
  re := alts [
    cat [lit "import", wsP, .starL anyC, lit "from", wsP, quoteC,
         .grp 1 (plus (chNot "\x27\x22")), quoteC],
    cat [lit "require", wsS, lit "(", quoteC, .grp 2 (plus (chNot "\x27\x22")), quoteC, lit ")"],
    cat [lit "import", wsP, opt (cat [lit "static", wsP]),
         .grp 3 (cat [plus modChar, opt (cat [lit ".", lit "*"])])],
    cat [lit "require", wsP, quoteC, .grp 4 (plus (chNot "\x27\x22")), quoteC],
    cat [lit "import", wsP, quoteC, .grp 5 (plus (chNot "\x27\x22")), quoteC]]
  names := [("module", 1), ("module2", 2), ("module3", 3), ("module4", 4), ("module5", 5)]

/-- `PATTERNS['import']['system']`: alternation of
`#include\s*[<"](?P<module>[^>"]+)[>"]`,
`using\s+(?:static\s+)?(?P<module2>[a-zA-Z0-9_\.]+)\s*;`,
`namespace\s+(?P<module3>[a-zA-Z0-9_\\]+)`,
`import\s+(?P<module4>[^\n;]+)\s*;?`,
`#import\s*[<"](?P<module5>[^>"]+)[>"]` -/
def importSystem : CPat where
  re := alts [
    cat [lit "#include", wsS, chOf "<\x22", .grp 1 (plus (chNot ">\x22")), chOf ">\x22"],
    cat [lit "using", wsP, opt (cat [lit "static", wsP]), .grp 2 (plus modChar), wsS, lit ";"],
    cat [lit "namespace", wsP,
         .grp 3 (plus (.cls ⟨false, [.range 'a' 'z', .range 'A' 'Z', .range '0' '9', .ch '_', .ch '\\']⟩))],
    cat [lit "import", wsP, .grp 4 (plus (chNot "\n;")), wsS, opt (lit ";")],
    cat [lit "#import", wsS, chOf "<\x22", .grp 5 (plus (chNot ">\x22")), chOf ">\x22"]]
  names := [("module", 1), ("module2", 2), ("module3", 3), ("module4", 4), ("module5", 5)]

/-- `(?:export\s+)?` -/
def exportOpt : RE := opt (cat [lit "export", wsP])

/-- `PATTERNS['class']['python']`:
`(?:@\w+(?:\(.*?\))?\s+)*class\s+(?P<name>\w+)(?:\((?P<base>[^)]+)\))?\s*:`
`(?:\s*['"](?P<docstring>[^'"]*)['"])?` -/
def classPython : CPat where
  re := cat [
    .star (cat [lit "@", plus wordC, opt (cat [lit "(", .starL anyC, lit ")"]), wsP]),
    lit "class", wsP, .grp 1 (plus wordC),
    opt (cat [lit "(", .grp 2 (plus (chNot ")")), lit ")"]),
    wsS, lit ":",
    opt (cat [wsS, quoteC, .grp 3 (.star (chNot "\x27\x22")), quoteC])]
  names := [("name", 1), ("base", 2), ("docstring", 3)]

/-- `PATTERNS['class']['web']`: alternation of
`(?:export\s+)?(?:abstract\s+)?class\s+(?P<name>\w+)(?:\s*(?:extends|implements)\s+(?P<base>[^{<]+))?(?:\s*<[^>]+>)?\s*{`,
`(?:export\s+)?(?:const|let|var)\s+(?P<name2>\w+)\s*=\s*class(?:\s+extends\s+(?P<base2>[^{]+))?\s*{`,
`(?:export\s+)?class\s+(?P<name3>\w+)\s*(?:<[^>]+>)?\s*(?:extends|implements)\s+(?P<base3>[^{]+)?\s*{` -/
def classWeb : CPat where
  re := alts [
    cat [exportOpt, opt (cat [lit "abstract", wsP]), lit "class", wsP, .grp 1 (plus wordC),
         opt (cat [wsS, .alt (lit "extends") (lit "implements"), wsP,
                   .grp 2 (plus (chNot "\x7b<"))]),
         opt (cat [wsS, lit "<", plus (chNot ">"), lit ">"]), wsS, lit "\x7b"],
    cat [exportOpt, alts [lit "const", lit "let", lit "var"], wsP, .grp 3 (plus wordC),
         wsS, lit "=", wsS, lit "class",
         opt (cat [wsP, lit "extends", wsP, .grp 4 (plus (chNot "\x7b"))]), wsS, lit "\x7b"],
    cat [exportOpt, lit "class", wsP, .grp 5 (plus wordC), wsS,
         opt (cat [lit "<", plus (chNot ">"), lit ">"]), wsS,
         .alt (lit "extends") (lit "implements"), wsP,
         opt (.grp 6 (plus (chNot "\x7b"))), wsS, lit "\x7b"]]
  names := [("name", 1), ("base", 2), ("name2", 3), ("base2", 4), ("name3", 5), ("base3", 6)]

/-- `(?:(?:public|private|protected|internal|friend)\s+)*` -/
def visStar : RE :=
  .star (cat [alts [lit "public", lit "private", lit "protected", lit "internal", lit "friend"], wsP])

/-- `PATTERNS['class']['system']`: alternation of
`(?:(?:public|private|protected|internal|friend)\s+)*(?:abstract\s+)?(?:partial\s+)?(?:sealed\s+)?(?:class|struct|enum|union|@interface|@implementation)\s+(?P<name>\w+)(?:\s*(?::\s*|extends\s+|implements\s+)(?P<base>[^{;]+))?(?:\s*{)?`,
`(?:@interface|@implementation)\s+(?P<name2>\w+)(?:\s*:\s*(?P<base2>[^{]+))?\s*{?` -/
def classSystem : CPat where
  re := alts [
    cat [visStar, opt (cat [lit "abstract", wsP]), opt (cat [lit "partial", wsP]),
         opt (cat [lit "sealed", wsP]),
         alts [lit "class", lit "struct", lit "enum", lit "union",
               lit "@interface", lit "@implementation"],
         wsP, .grp 1 (plus wordC),
         opt (cat [wsS,
                   alts [cat [lit ":", wsS], cat [lit "extends", wsP], cat [lit "implements", wsP]],
                   .grp 2 (plus (chNot "\x7b;"))]),
         opt (cat [wsS, lit "\x7b"])],
    cat [.alt (lit "@interface") (lit "@implementation"), wsP, .grp 3 (plus wordC),
         opt (cat [wsS, lit ":", wsS, .grp 4 (plus (chNot "\x7b"))]), wsS, opt (lit "\x7b")]]
  names := [("name", 1), ("base", 2), ("name2", 3), ("base2", 4)]

/-- `PATTERNS['function']['python']`:
`(?:@\w+(?:\(.*?\))?\s+)*def\s+(?P<name>\w+)\s*\((?P<params>[^)]*)\)`
`(?:\s*->\s*(?P<return>[^:#]+))?\s*:(?:\s*['"](?P<docstring>[^'"]*)['"])?` -/
def functionPython : CPat where
  re := cat [
    .star (cat [lit "@", plus wordC, opt (cat [lit "(", .starL anyC, lit ")"]), wsP]),
    lit "def", wsP, .grp 1 (plus wordC), wsS,
    lit "(", .grp 2 (.star (chNot ")")), lit ")",
    opt (cat [wsS, lit "->", wsS, .grp 3 (plus (chNot ":#"))]),
    wsS, lit ":",
    opt (cat [wsS, quoteC, .grp 4 (.star (chNot "\x27\x22")), quoteC])]
  names := [("name", 1), ("params", 2), ("return", 3), ("docstring", 4)]

/-- `PATTERNS['function']['web']`: alternation of
`(?:export\s+)?(?:async\s+)?function\s*(?P<name>\w+)\s*(?:<[^>]+>)?\s*\((?P<params>[^)]*)\)(?:\s*:\s*(?P<return>[^{=]+))?\s*{`,
`(?:export\s+)?(?:const|let|var)\s+(?P<name2>\w+)\s*=\s*(?:async\s+)?(?:function\s*\*?|\([^)]*\)\s*=>)`,
`(?:public|private|protected)?\s*(?:static\s+)?(?:async\s+)?(?P<name3>\w+)\s*\((?P<params2>[^)]*)\)(?:\s*:\s*(?P<return2>[^{;]+))?\s*{?` -/
def functionWeb : CPat where
  re := alts [
    cat [exportOpt, opt (cat [lit "async", wsP]), lit "function", wsS, .grp 1 (plus wordC),
         wsS, opt (cat [lit "<", plus (chNot ">"), lit ">"]), wsS,
         lit "(", .grp 2 (.star (chNot ")")), lit ")",
         opt (cat [wsS, lit ":", wsS, .grp 3 (plus (chNot "\x7b="))]), wsS, lit "\x7b"],
    cat [exportOpt, alts [lit "const", lit "let", lit "var"], wsP, .grp 4 (plus wordC),
         wsS, lit "=", wsS, opt (cat [lit "async", wsP]),
         .alt (cat [lit "function", wsS, opt (lit "*")])
              (cat [lit "(", .star (chNot ")"), lit ")", wsS, lit "=>"])],
    cat [opt (alts [lit "public", lit "private", lit "protected"]), wsS,
         opt (cat [lit "static", wsP]), opt (cat [lit "async", wsP]),
         .grp 5 (plus wordC), wsS, lit "(", .grp 6 (.star (chNot ")")), lit ")",
         opt (cat [wsS, lit ":", wsS, .grp 7 (plus (chNot "\x7b;"))]), wsS, opt (lit "\x7b")]]
  names := [("name", 1), ("params", 2), ("return", 3), ("name2", 4),
            ("name3", 5), ("params2", 6), ("return2", 7)]

/-- `PATTERNS['function']['system']`: alternation of
`(?:(?:public|private|protected|internal|friend)\s+)*(?:static\s+)?(?:virtual\s+)?(?:override\s+)?(?:async\s+)?(?:[\w:]+\s+)?(?P<name>\w+)\s*\((?P<params>[^)]*)\)(?:\s*(?:const|override|final|noexcept))?\s*(?:{\s*)?`,
`[-+]\s*\((?P<return>[^)]+)\)(?P<name2>\w+)(?::\s*\((?P<paramtype>[^)]+)\)(?P<param>\w+))*` -/
def functionSystem : CPat where
  re := alts [
    cat [visStar, opt (cat [lit "static", wsP]), opt (cat [lit "virtual", wsP]),
         opt (cat [lit "override", wsP]), opt (cat [lit "async", wsP]),
         opt (cat [plus (.cls ⟨false, [.word, .ch ':']⟩), wsP]),
         .grp 1 (plus wordC), wsS, lit "(", .grp 2 (.star (chNot ")")), lit ")",
         opt (cat [wsS, alts [lit "const", lit "override", lit "final", lit "noexcept"]]),
         wsS, opt (cat [lit "\x7b", wsS])],
    cat [chOf "-+", wsS, lit "(", .grp 3 (plus (chNot ")")), lit ")", .grp 4 (plus wordC),
         .star (cat [lit ":", wsS, lit "(", .grp 5 (plus (chNot ")")), lit ")",
                     .grp 6 (plus wordC)])]]
  names := [("name", 1), ("params", 2), ("return", 3), ("name2", 4), ("paramtype", 5), ("param", 6)]

/-- `PATTERNS['common']['interface']`:
`(?:export\s+)?interface\s+(?P<name>\w+)(?:\s+extends\s+(?P<base>[^{]+))?\s*{(?:[^{}]|{[^{}]*})*}` -/
def interfaceC : CPat where
  re := cat [exportOpt, lit "interface", wsP, .grp 1 (plus wordC),
             opt (cat [wsP, lit "extends", wsP, .grp 2 (plus (chNot "\x7b"))]),
             wsS, lit "\x7b",
             .star (.alt (chNot "\x7b\x7d")
                         (cat [lit "\x7b", .star (chNot "\x7b\x7d"), lit "\x7d"])),
             lit "\x7d"]
  names := [("name", 1), ("base", 2)]

/-- `PATTERNS['common']['jsx_component']`: `<(?P<name>[A-Z]\w*)(?:\s+(?:(?!\/>)[^>])+)?>` -/
def jsxComponent : CPat where
  re := cat [lit "<", .grp 1 (cat [.cls ⟨false, [.range 'A' 'Z']⟩, .star wordC]),
             opt (cat [wsP, plus (cat [.look false (lit "/>"), chNot ">"])]), lit ">"]
  names := [("name", 1)]

/-- `PATTERNS['common']['react_hook']`: `\buse[A-Z]\w+\b(?=\s*\()` -/
def reactHook : CPat where
  re := cat [.wordB, lit "use", .cls ⟨false, [.range 'A' 'Z']⟩, plus wordC, .wordB,
             .look true (cat [wsS, lit "("])]
  names := []

/-- `PATTERNS['common']['next_api']`:
`export\s+(?:async\s+)?function\s+(?:getStaticProps|getStaticPaths|getServerSideProps)\s*\(` -/
def nextApi : CPat where
  re := cat [lit "export", wsP, opt (cat [lit "async", wsP]), lit "function", wsP,
             alts [lit "getStaticProps", lit "getStaticPaths", lit "getServerSideProps"],
             wsS, lit "("]
  names := []

/-- `PATTERNS['common']['next_page']`:
`(?:pages|app)/(?!_)[^/]+(?:/(?!_)[^/]+)*\.(?:js|jsx|ts|tsx)$` — note the rule
declares NO named groups at all. -/
def nextPage : CPat where
  re := cat [.alt (lit "pages") (lit "app"), lit "/", .look false (lit "_"), plus (chNot "/"),
             .star (cat [lit "/", .look false (lit "_"), plus (chNot "/")]),
             lit ".", alts [lit "js", lit "jsx", lit "ts", lit "tsx"], .eol]
  names := []

/-- `PATTERNS['common']['next_layout']`:
`(?:layout|page|loading|error|not-found)\.(?:js|jsx|ts|tsx)$` -/
def nextLayout : CPat where
  re := cat [alts [lit "layout", lit "page", lit "loading", lit "error", lit "not-found"],
             lit ".", alts [lit "js", lit "jsx", lit "ts", lit "tsx"], .eol]
  names := []

/-- `PATTERNS['common']['styled_component']`:
`(?:const\s+)?(?P<name>\w+)\s*=\s*styled(?:\.(?P<element>\w+)|(?:\([\w.]+\)))` +
a backtick-delimited template literal. -/
def styledComponent : CPat where
  re := cat [opt (cat [lit "const", wsP]), .grp 1 (plus wordC), wsS, lit "=", wsS,
             lit "styled",
             .alt (cat [lit ".", .grp 2 (plus wordC)])
                  (cat [lit "(", plus (.cls ⟨false, [.word, .ch '.']⟩), lit ")"]),
             lit "\x60", .star (chNot "\x60"), lit "\x60"]
  names := [("name", 1), ("element", 2)]

/-- `PATTERNS['unity']['component']`:
`(?:public\s+)?class\s+\w+\s*:\s*(?:MonoBehaviour|ScriptableObject|EditorWindow)` -/
def unityComponent : CPat where
  re := cat [opt (cat [lit "public", wsP]), lit "class", wsP, plus wordC, wsS, lit ":", wsS,
             alts [lit "MonoBehaviour", lit "ScriptableObject", lit "EditorWindow"]]
  names := []

/-- `PATTERNS['unity']['lifecycle']`:
`(?:private\s+|protected\s+|public\s+)?(?:virtual\s+)?(?:override\s+)?void\s+(?:Awake|Start|Update|FixedUpdate|LateUpdate|OnEnable|OnDisable|OnDestroy|OnTriggerEnter|OnTriggerExit|OnCollisionEnter|OnCollisionExit|OnMouseDown|OnMouseUp|OnGUI)\s*\([^)]*\)` -/
def unityLifecycle : CPat where
  re := cat [opt (alts [cat [lit "private", wsP], cat [lit "protected", wsP],
                        cat [lit "public", wsP]]),
             opt (cat [lit "virtual", wsP]), opt (cat [lit "override", wsP]),
             lit "void", wsP,
             alts [lit "Awake", lit "Start", lit "Update", lit "FixedUpdate", lit "LateUpdate",
                   lit "OnEnable", lit "OnDisable", lit "OnDestroy", lit "OnTriggerEnter",
                   lit "OnTriggerExit", lit "OnCollisionEnter", lit "OnCollisionExit",
                   lit "OnMouseDown", lit "OnMouseUp", lit "OnGUI"],
             wsS, lit "(", .star (chNot ")"), lit ")"]
  names := []

/-- `PATTERNS['unity']['attribute']`:
`\[\s*(?:SerializeField|Header|Tooltip|Range|RequireComponent|ExecuteInEditMode|CreateAssetMenu|MenuItem)(?:\s*\(\s*(?P<params>[^)]+)\s*\))?\s*\]` -/
def unityAttribute : CPat where
  re := cat [lit "[", wsS,
             alts [lit "SerializeField", lit "Header", lit "Tooltip", lit "Range",
                   lit "RequireComponent", lit "ExecuteInEditMode", lit "CreateAssetMenu",
                   lit "MenuItem"],
             opt (cat [wsS, lit "(", wsS, .grp 1 (plus (chNot ")")), wsS, lit ")"]),
             wsS, lit "]"]
  names := [("params", 1)]

/-- `PATTERNS['unity']['type']`:
`\b(?:GameObject|Transform|Rigidbody|Collider|AudioSource|Camera|Light|Animator|ParticleSystem|Canvas|Image|Text|Button|Vector[23]|Quaternion)\b` -/
def unityType : CPat where
  re := cat [.wordB,
             alts [lit "GameObject", lit "Transform", lit "Rigidbody", lit "Collider",
                   lit "AudioSource", lit "Camera", lit "Light", lit "Animator",
                   lit "ParticleSystem", lit "Canvas", lit "Image", lit "Text", lit "Button",
                   cat [lit "Vector", chOf "23"], lit "Quaternion"],
             .wordB]
  names := []

/-- `PATTERNS['unity']['event']`:
`(?:public\s+|private\s+|protected\s+)?UnityEvent\s*<\s*(?P<type>[^>]*)\s*>\s+(?P<name>\w+)` -/
def unityEvent : CPat where
  re := cat [opt (alts [cat [lit "public", wsP], cat [lit "private", wsP],
                        cat [lit "protected", wsP]]),
             lit "UnityEvent", wsS, lit "<", wsS, .grp 1 (.star (chNot ">")), wsS, lit ">",
             wsP, .grp 2 (plus wordC)]
  names := [("type", 1), ("name", 2)]

/-- `PATTERNS['unity']['field']`:
`(?:public\s+|private\s+|protected\s+|internal\s+)?(?:\[SerializeField\]\s*)?(?P<type>\w+(?:<[^>]+>)?)\s+(?P<name>\w+)\s*(?:=\s*(?P<value>[^;]+))?;` -/
def unityField : CPat where
  re := cat [opt (alts [cat [lit "public", wsP], cat [lit "private", wsP],
                        cat [lit "protected", wsP], cat [lit "internal", wsP]]),
             opt (cat [lit "[SerializeField]", wsS]),
             .grp 1 (cat [plus wordC, opt (cat [lit "<", plus (chNot ">"), lit ">"])]),
             wsP, .grp 2 (plus wordC), wsS,
             opt (cat [lit "=", wsS, .grp 3 (plus (chNot ";"))]), lit ";"]
  names := [("type", 1), ("name", 2), ("value", 3)]

/-- Lookup in `compiled_patterns[kind][group]` for the three construct
kinds iterated by `_analyze_file` (`pattern_groups` maps every language to
`python`, `web` or `system`). -/
def compiledPatterns (kind group : String) : CPat :=
  if kind == "import" then
    (if group == "python" then importPython else if group == "web" then importWeb
     else importSystem)
  else if kind == "class" then
    (if group == "python" then classPython else if group == "web" then classWeb
     else classSystem)
  else
    (if group == "python" then functionPython else if group == "web" then functionWeb
     else functionSystem)

/-! ## Data model

Python mutates one shared `structure` dict in place; records are dicts with
a per-kind set of keys. A record is embedded as a structure with optional
fields (`none` = key absent), and the aggregate keeps each list of the
`structure` dict that the analyzed code touches. Dicts with
insertion-order semantics are association lists. -/

/-- The Python truthiness test on an optional string: `None` and `""` are
falsy. -/
def truthy : Option String → Option String
  | some s => if s == "" then none else some s
  | none => none

/-- One extracted record (a Python dict; `none` = key absent). -/
structure PRec where
  type : String
  file : String
  name : Option String := none
  parameters : Option String := none
  base : Option String := none
  inheritance : Option String := none
  return_type : Option String := none
  route : Option String := none
  nested : Option String := none
  element : Option String := none
  event_type : Option String := none
  field_type : Option String := none
deriving DecidableEq, Inhabited

/-- The parts of the `structure` dict of `_analyze_project_structure` that
the analysis routines read or write (pattern lists flattened in). -/
structure PStructure where
  files : List String := []
  dependencies : List (String × Bool) := []
  languages : List (String × Nat) := []
  config_files : List String := []
  code_contents : List (String × String) := []
  imports : List String := []
  class_patterns : List PRec := []
  function_patterns : List PRec := []
  code_organization : List PRec := []
  configurations : List (String × String) := []
deriving DecidableEq, Inhabited

/-- `d[k] = v` on an insertion-ordered dict. -/
def dictSetB (d : List (String × Bool)) (k : String) (v : Bool) : List (String × Bool) :=
  if d.any (fun kv => kv.1 == k) then d.map (fun kv => if kv.1 == k then (kv.1, v) else kv)
  else d ++ [(k, v)]

/-- `d[k] = d.get(k, 0) + 1`. -/
def bump (d : List (String × Nat)) (k : String) : List (String × Nat) :=
  if d.any (fun kv => kv.1 == k) then
    d.map (fun kv => if kv.1 == k then (kv.1, kv.2 + 1) else kv)
  else d ++ [(k, 1)]

def hasKey (d : List (String × Bool)) (k : String) : Bool := d.any (fun kv => kv.1 == k)

def listHasInfix (sub : List Char) : List Char → Bool
  | [] => sub.isEmpty
  | c :: cs => sub.isPrefixOf (c :: cs) || listHasInfix sub cs

/-- Python `sub in s` on strings. -/
def strContains (s sub : String) : Bool := listHasInfix sub.toList s.toList

def strLower (s : String) : String := String.mk (s.toList.map Char.toLower)

/-- Python `s.startswith(pre)`. -/
def strStartsWith (s pre : String) : Bool := pre.toList.isPrefixOf s.toList

/-- `os.path.splitext(name)[1].lower()`: the extension starts at the last
dot, except that leading dots of the name do not open an extension. -/
def splitextLower (name : String) : String :=
  let noLead := name.toList.dropWhile (fun c => c == '.')
  if noLead.any (fun c => c == '.') then
    String.mk (('.' :: (noLead.reverse.takeWhile (fun c => c != '.')).reverse).map Char.toLower)
  else ""

def endsWithStr (s suffix : String) : Bool := suffix.toList.isSuffixOf s.toList

/-! ## `RulesGenerator._analyze_file` and its sub-analyses

Mutation-plus-exception Python code is embedded as state threading with an
error flag: a result `(s, some e)` keeps all mutations made before the
exception `e` escaped, as they persist on the shared dict in Python. -/

abbrev ARes := PStructure × Option String

/-- Sequencing under the error flag: once an exception has escaped,
nothing further runs. -/
def step (r : ARes) (f : PStructure → ARes) : ARes :=
  match r with
  | (s1, none) => f s1
  | (s1, some e) => (s1, some e)

/-- A `for match in finditer(...)` loop whose body may raise: the loop
stops at the first escaping exception, keeping prior iterations. -/
def foldE (f : PStructure → RMatch → ARes) (ms : List RMatch) (s : PStructure) : ARes :=
  match ms with
  | [] => (s, none)
  | m :: rest =>
    match f s m with
    | (s1, none) => foldE f rest s1
    | (s1, some e) => (s1, some e)

/-- rules_generator.py:224: the first truthy capture whose name starts
with `module`. -/
def firstModule (gd : List (String × Option String)) : Option String :=
  (gd.find? (fun kv => (truthy kv.2).isSome && strStartsWith kv.1 "module")).bind
    (fun kv => truthy kv.2)

/-- rules_generator.py:231: the first truthy capture whose name is exactly
`name` or exactly `n`. -/
def coalesceName (gd : List (String × Option String)) : Option String :=
  (gd.find? (fun kv => (truthy kv.2).isSome && (kv.1 == "name" || kv.1 == "n"))).bind
    (fun kv => truthy kv.2)

/-- `'key' in groups and groups['key']`, yielding the truthy value. -/
def gdGet (gd : List (String × Option String)) (key : String) : Option String :=
  match gd.find? (fun kv => kv.1 == key) with
  | some kv => truthy kv.2
  | none => none

namespace RulesGenerator

/-- The `pattern_groups` mapping of `_analyze_file`
(rules_generator.py:195-209), defaulting to `system`. -/
def pattern_groups (language : String) : String :=
  if language == "python" then "python"
  else if language == "javascript" then "web"
  else if language == "typescript" then "web"
  else if language == "csharp" then "system"
  else if language == "cpp" then "system"
  else if language == "c" then "system"
  else if language == "php" then "system"
  else if language == "kotlin" then "system"
  else if language == "swift" then "system"
  else if language == "java" then "web"
  else if language == "ruby" then "web"
  else if language == "objc" then "system"
  else "system"

/-- The body of the `for match in matches` loop of `_analyze_file`
(rules_generator.py:216-252) for one match of one construct kind: imports
update the dependency dict and the imports list; class and function
matches are coalesced through `coalesceName` and appended, or silently
dropped when no identifier resolves. -/
def processMatch (p : CPat) (ptype rel_path : String) (st : PStructure) (m : RMatch) :
    PStructure :=
  let gd := p.gdict m
  if ptype == "import" then
    match firstModule gd with
    | some module =>
      { st with dependencies := dictSetB st.dependencies module true,
                imports := st.imports ++ [module] }
    | none => st
  else
    match coalesceName gd with
    | none => st
    | some nm =>
      let info : PRec := { type := ptype, file := rel_path, name := some nm,
                           parameters := gdGet gd "params",
                           base := (gdGet gd "base").map String.trim,
                           return_type := (gdGet gd "return").map String.trim }
      if ptype == "class" then { st with class_patterns := st.class_patterns ++ [info] }
      else { st with function_patterns := st.function_patterns ++ [info] }

/-- One iteration of the `for pattern_type in ['import', 'class',
'function']` loop of `_analyze_file` (rules_generator.py:212-249). -/
def processPatternType (p : CPat) (ptype rel_path content : String) (s : PStructure) :
    PStructure :=
  List.foldl (processMatch p ptype rel_path) s (finditer p.re content)

/-- `RulesGenerator._analyze_web_patterns` (rules_generator.py:532-594). -/
def analyze_web_patterns (content rel_path : String) (s : PStructure) : ARes :=
  let s := List.foldl (fun st m =>
      { st with class_patterns := st.class_patterns ++ [{
          type := "interface/type", file := rel_path, name := m.group 1,
          inheritance := some (((truthy (m.group 2)).map String.trim).getD "") }] })
    s (finditer interfaceC.re content)
  let s := List.foldl (fun st m =>
      match m.group 1 with
      | some component_name =>
        if (component_name.toList.headD ' ').isUpper then
          { st with class_patterns := st.class_patterns ++ [{
              type := "react_component", file := rel_path, name := some component_name }] }
        else st
      | none => st)
    s (finditer jsxComponent.re content)
  let s := List.foldl (fun st m =>
      { st with function_patterns := st.function_patterns ++ [{
          type := "react_hook", file := rel_path, name := some m.whole }] })
    s (finditer reactHook.re content)
  let r :=
    if strContains rel_path "pages/" || strContains rel_path "app/" then
      let s := List.foldl (fun st m =>
          { st with function_patterns := st.function_patterns ++ [{
              type := "next_data_fetching", file := rel_path, name := some m.whole }] })
        s (finditer nextApi.re content)
      let r :=
        match rsearch nextPage.re rel_path with
        | some pm =>
          match nextPage.groupN pm "route" with
          | .error e => (s, some e)
          | .ok route =>
            match nextPage.groupN pm "nested" with
            | .error e => (s, some e)
            | .ok nested =>
              ({ s with code_organization := s.code_organization ++ [{
                   type := "next_page", file := rel_path, route := route,
                   nested := nested }] }, none)
        | none => (s, none)
      step r (fun s2 =>
        if (rsearch nextLayout.re rel_path).isSome then
          ({ s2 with code_organization := s2.code_organization ++ [{
               type := "next_layout", file := rel_path }] }, none)
        else (s2, none))
    else (s, none)
  step r (fun s3 =>
    foldE (fun st m =>
        match styledComponent.groupN m "element" with
        | .error e => (st, some e)
        | .ok v =>
          ({ st with code_organization := st.code_organization ++ [{
               type := "styled_component", file := rel_path,
               element := some ((truthy v).getD "css") }] }, none))
      (finditer styledComponent.re content) s3)

/-- `RulesGenerator._analyze_unity_patterns` (rules_generator.py:596-647);
the serialized-field section reads the captures positionally
(`match.group(1)`, `match.group(2)`). -/
def analyze_unity_patterns (content rel_path : String) (s : PStructure) : ARes :=
  let s := List.foldl (fun st m =>
      { st with class_patterns := st.class_patterns ++ [{
          type := "unity_component", file := rel_path, name := some m.whole }] })
    s (finditer unityComponent.re content)
  let s := List.foldl (fun st m =>
      { st with function_patterns := st.function_patterns ++ [{
          type := "unity_lifecycle", file := rel_path, name := some m.whole }] })
    s (finditer unityLifecycle.re content)
  let r := foldE (fun st m =>
      match unityAttribute.groupN m "params" with
      | .error e => (st, some e)
      | .ok v =>
        ({ st with code_organization := st.code_organization ++ [{
             type := "unity_attribute", file := rel_path, name := some m.whole,
             parameters := some ((truthy v).getD "") }] }, none))
    (finditer unityAttribute.re content) s
  step r (fun s2 =>
    let s2 := List.foldl (fun st m =>
        { st with class_patterns := st.class_patterns ++ [{
            type := "unity_type", file := rel_path, name := some m.whole }] })
      s2 (finditer unityType.re content)
    let r2 := foldE (fun st m =>
        match unityEvent.groupN m "type" with
        | .error e => (st, some e)
        | .ok t =>
          match unityEvent.groupN m "name" with
          | .error e => (st, some e)
          | .ok n =>
            ({ st with code_organization := st.code_organization ++ [{
                 type := "unity_event", file := rel_path, event_type := t,
                 name := n }] }, none))
      (finditer unityEvent.re content) s2
    step r2 (fun s3 =>
      foldE (fun st m =>
          ({ st with code_organization := st.code_organization ++ [{
               type := "unity_field", file := rel_path,
               field_type := m.group 1, name := m.group 2 }] }, none))
        (finditer unityField.re content) s3))

/-- `RulesGenerator._analyze_file` (rules_generator.py:192-260): the three
construct kinds, then the web-specific pass for TypeScript/JavaScript,
then the Unity pass for C# files containing a framework marker substring. -/
def analyze_file (content rel_path : String) (s : PStructure) (language : String) : ARes :=
  let pattern_group := pattern_groups language
  let s := processPatternType (compiledPatterns "import" pattern_group) "import" rel_path content s
  let s := processPatternType (compiledPatterns "class" pattern_group) "class" rel_path content s
  let s := processPatternType (compiledPatterns "function" pattern_group) "function" rel_path content s
  let r :=
    if language == "typescript" || language == "javascript" then
      analyze_web_patterns content rel_path s
    else (s, none)
  step r (fun s2 =>
    if language == "csharp" &&
       (strContains content "UnityEngine" || strContains content "MonoBehaviour" ||
        strContains content "ScriptableObject") then
      analyze_unity_patterns content rel_path s2
    else (s2, none))

end RulesGenerator

namespace Analyzers

/-- `analyzers.analyze_web_patterns` (analyzers.py:67-129), the
module-level duplicate of `RulesGenerator._analyze_web_patterns`; the
compiled table it receives is the same `PATTERNS` compilation. -/
def analyze_web_patterns (content rel_path : String) (s : PStructure) : ARes :=
  let s := List.foldl (fun st m =>
      { st with class_patterns := st.class_patterns ++ [{
          type := "interface/type", file := rel_path, name := m.group 1,
          inheritance := some (((truthy (m.group 2)).map String.trim).getD "") }] })
    s (finditer interfaceC.re content)
  let s := List.foldl (fun st m =>
      match m.group 1 with
      | some component_name =>
        if (component_name.toList.headD ' ').isUpper then
          { st with class_patterns := st.class_patterns ++ [{
              type := "react_component", file := rel_path, name := some component_name }] }
        else st
      | none => st)
    s (finditer jsxComponent.re content)
  let s := List.foldl (fun st m =>
      { st with function_patterns := st.function_patterns ++ [{
          type := "react_hook", file := rel_path, name := some m.whole }] })
    s (finditer reactHook.re content)
  let r :=
    if strContains rel_path "pages/" || strContains rel_path "app/" then
      let s := List.foldl (fun st m =>
          { st with function_patterns := st.function_patterns ++ [{
              type := "next_data_fetching", file := rel_path, name := some m.whole }] })
        s (finditer nextApi.re content)
      let r :=
        match rsearch nextPage.re rel_path with
        | some pm =>
          match nextPage.groupN pm "route" with
          | .error e => (s, some e)
          | .ok route =>
            match nextPage.groupN pm "nested" with
            | .error e => (s, some e)
            | .ok nested =>
              ({ s with code_organization := s.code_organization ++ [{
                   type := "next_page", file := rel_path, route := route,
                   nested := nested }] }, none)
        | none => (s, none)
      step r (fun s2 =>
        if (rsearch nextLayout.re rel_path).isSome then
          ({ s2 with code_organization := s2.code_organization ++ [{
               type := "next_layout", file := rel_path }] }, none)
        else (s2, none))
    else (s, none)
  step r (fun s3 =>
    foldE (fun st m =>
        match styledComponent.groupN m "element" with
        | .error e => (st, some e)
        | .ok v =>
          ({ st with code_organization := st.code_organization ++ [{
               type := "styled_component", file := rel_path,
               element := some ((truthy v).getD "css") }] }, none))
      (finditer styledComponent.re content) s3)

/-- `analyzers.analyze_unity_patterns` (analyzers.py:131-182), the
module-level duplicate of `RulesGenerator._analyze_unity_patterns`; its
serialized-field section reads the captures by name
(`match.group('type')`, `match.group('name')`). -/
def analyze_unity_patterns (content rel_path : String) (s : PStructure) : ARes :=
  let s := List.foldl (fun st m =>
      { st with class_patterns := st.class_patterns ++ [{
          type := "unity_component", file := rel_path, name := some m.whole }] })
    s (finditer unityComponent.re content)
  let s := List.foldl (fun st m =>
      { st with function_patterns := st.function_patterns ++ [{
          type := "unity_lifecycle", file := rel_path, name := some m.whole }] })
    s (finditer unityLifecycle.re content)
  let r := foldE (fun st m =>
      match unityAttribute.groupN m "params" with
      | .error e => (st, some e)
      | .ok v =>
        ({ st with code_organization := st.code_organization ++ [{
             type := "unity_attribute", file := rel_path, name := some m.whole,
             parameters := some ((truthy v).getD "") }] }, none))
    (finditer unityAttribute.re content) s
  step r (fun s2 =>
    let s2 := List.foldl (fun st m =>
        { st with class_patterns := st.class_patterns ++ [{
            type := "unity_type", file := rel_path, name := some m.whole }] })
      s2 (finditer unityType.re content)
    let r2 := foldE (fun st m =>
        match unityEvent.groupN m "type" with
        | .error e => (st, some e)
        | .ok t =>
          match unityEvent.groupN m "name" with
          | .error e => (st, some e)
          | .ok n =>
            ({ st with code_organization := st.code_organization ++ [{
                 type := "unity_event", file := rel_path, event_type := t,
                 name := n }] }, none))
      (finditer unityEvent.re content) s2
    step r2 (fun s3 =>
      foldE (fun st m =>
          match unityField.groupN m "type" with
          | .error e => (st, some e)
          | .ok t =>
            match unityField.groupN m "name" with
            | .error e => (st, some e)
            | .ok n =>
              ({ st with code_organization := st.code_organization ++ [{
                   type := "unity_field", file := rel_path,
                   field_type := t, name := n }] }, none))
        (finditer unityField.re content) s3))

end Analyzers

/-! ## The aggregator (`_analyze_project_structure`) -/

/-- The recognized code-extension list of rules_generator.py:145. -/
def CODE_EXTENSIONS : List String :=
  [".py", ".js", ".ts", ".tsx", ".kt", ".php", ".swift", ".cpp", ".c", ".h", ".hpp",
   ".cs", ".csx", ".java", ".rb", ".objc"]

/-- Modelled from the spec: `patterns_analyzer.get_language_from_ext` is
not among the sources; §4.3 specifies a fixed extension→language table
(`.py`→Python, `.ts`→TypeScript, `.cs`→C#, unknown→Unknown). The language
identifiers are chosen to line up with the keys of `pattern_groups` in
`rules_generator._analyze_file`. -/
def get_language_from_ext (ext : String) : String :=
  if ext == ".py" then "python"
  else if ext == ".js" then "javascript"
  else if ext == ".ts" || ext == ".tsx" then "typescript"
  else if ext == ".cs" || ext == ".csx" then "csharp"
  else if ext == ".cpp" || ext == ".hpp" then "cpp"
  else if ext == ".c" || ext == ".h" then "c"
  else if ext == ".kt" then "kotlin"
  else if ext == ".php" then "php"
  else if ext == ".swift" then "swift"
  else if ext == ".java" then "java"
  else if ext == ".rb" then "ruby"
  else if ext == ".objc" then "objc"
  else "unknown"

/-- The per-directory counters of `dir_stats` (rules_generator.py:124-134)
that the per-file loop updates. -/
structure DirStats where
  total_files : Nat := 0
  code_files : Nat := 0
  languages : List (String × Nat) := []
deriving DecidableEq, Inhabited

/-- One file handed to the aggregator by the external `os.walk`
traversal: its basename and the outcome of opening and reading it. -/
structure FileEntry where
  name : String
  read : Except String String
deriving Inhabited

namespace RulesGenerator

/-- One iteration of the `for file in files` loop of
`_analyze_project_structure` (rules_generator.py:136-178). Both `try`
blocks swallow their exceptions and `continue`, and an exception escaping
`_analyze_file` is caught by the same per-file handler, keeping the
mutations made before it. In the source the `elif` opening the
configuration-file branch is mis-indented (it sits inside the
code-extension branch, directly after that branch's `try`/`except`, which
Python rejects as a syntax error); it is embedded here in its
spec-intended position as the alternative of the extension test. -/
def processFile (rel_root : String) (st : PStructure × DirStats) (f : FileEntry) :
    PStructure × DirStats :=
  let s := st.1
  let rel_path := if rel_root == "" then f.name else rel_root ++ "/" ++ f.name
  let d := { st.2 with total_files := st.2.total_files + 1 }
  let file_ext := splitextLower f.name
  if CODE_EXTENSIONS.contains file_ext then
    let s := { s with files := s.files ++ [rel_path] }
    let d := { d with code_files := d.code_files + 1 }
    let lang := get_language_from_ext file_ext
    let d := { d with languages := bump d.languages lang }
    let s := { s with languages := bump s.languages lang }
    match f.read with
    | .error _ => (s, d)
    | .ok content =>
      let s := { s with code_contents := s.code_contents ++ [(rel_path, content)] }
      ((analyze_file content rel_path s lang).1, d)
  else if endsWithStr f.name ".json" || endsWithStr f.name ".ini" || endsWithStr f.name ".conf" then
    let s := { s with config_files := s.config_files ++ [rel_path] }
    match f.read with
    | .error _ => (s, d)
    | .ok content =>
      ({ s with configurations := s.configurations ++ [(rel_path, content)] }, d)
  else (s, d)

/-- The aggregation pass over one directory's file list
(rules_generator.py:136-178). -/
def analyze_project_structure (rel_root : String) (files : List FileEntry) :
    PStructure × DirStats :=
  List.foldl (processFile rel_root) ({}, {}) files

end RulesGenerator

/-! ## Directory naming classification -/

def isCased (c : Char) : Bool := c.isLower || c.isUpper

/-- Python `str.islower` (ASCII model): at least one cased character, and
no cased character is uppercase. -/
def pyIslower (s : String) : Bool :=
  s.toList.any isCased && s.toList.all (fun c => !isCased c || c.isLower)

/-- Python `str.isupper` (ASCII model). -/
def pyIsupper (s : String) : Bool :=
  s.toList.any isCased && s.toList.all (fun c => !isCased c || c.isUpper)

def strContainsChar (s : String) (c : Char) : Bool := s.toList.contains c

/-- The directory naming-convention classification of
`RulesGenerator._analyze_directory_patterns` (rules_generator.py:270-279),
duplicated verbatim in `analyzers.analyze_directory_patterns`
(analyzers.py:192-201): five rules tried in order, first match wins. -/
def namePattern (dir_name : String) : String :=
  if pyIslower dir_name then "lowercase"
  else if pyIsupper dir_name then "uppercase"
  else if strContainsChar dir_name '_' then "snake_case"
  else if strContainsChar dir_name '-' then "kebab-case"
  else "mixed"

/-! ## `analyzers.analyze_file_content` -/

/-- The tables `analyzers.py` imports from the `config` module, which is
not among the sources, plus the function-pattern table: each pattern is a
matcher from content to the list of `match.groups()` tuples of its scan,
or an error (an invalid pattern or any exception while scanning). -/
structure AnalyzerConfig where
  binary_extensions : List String
  non_code_extensions : List String
  code_extensions : List String
  ignored_keywords : List String
  function_patterns : List (String × (String → Except String (List (List (Option String)))))

/-- `analyzers.is_binary_file` (analyzers.py:14-23). -/
def is_binary_file (cfg : AnalyzerConfig) (filename : String) : Bool :=
  let ext := splitextLower filename
  cfg.binary_extensions.contains ext || cfg.non_code_extensions.contains ext

/-- `next(filter(None, match.groups()), None)`: the first truthy group. -/
def firstTruthy : List (Option String) → Option String
  | [] => none
  | g :: gs =>
    match truthy g with
    | some v => some v
    | none => firstTruthy gs

/-- The body of the `for match in matches` loop of `analyze_file_content`
(analyzers.py:50-54): an empty or keyword identifier is skipped. -/
def scanGroups (cfg : AnalyzerConfig) (acc : List (String × String))
    (groups : List (Option String)) : List (String × String) :=
  match firstTruthy groups with
  | none => acc
  | some func_name =>
    if cfg.ignored_keywords.contains (strLower func_name) then acc
    else acc ++ [(func_name, "Function detected")]

/-- The body of the `for pattern_name, pattern in FUNCTION_PATTERNS` loop
(analyzers.py:47-60): a pattern whose scan raises is skipped whole. -/
def scanPattern (cfg : AnalyzerConfig) (content : String) (acc : List (String × String))
    (pp : String × (String → Except String (List (List (Option String))))) :
    List (String × String) :=
  match pp.2 content with
  | .error _ => acc
  | .ok found => List.foldl (scanGroups cfg) acc found

/-- `analyzers.analyze_file_content` (analyzers.py:29-65). Reading the
file is external and passed as its outcome; a failed read lands in the
outer `except`, which returns `([], 0)`. A failing pattern is skipped by
the inner `except` and the remaining patterns still run. -/
def analyze_file_content (cfg : AnalyzerConfig) (file_path : String)
    (read : Except String String) : List (String × String) × Nat :=
  if is_binary_file cfg file_path then ([], 0)
  else
    match read with
    | .error _ => ([], 0)
    | .ok content =>
      if !cfg.code_extensions.contains (splitextLower file_path) then ([], 0)
      else
        let functions := List.foldl (scanPattern cfg content) [] cfg.function_patterns
        (functions, (content.toList.count '\n') + 1)

/-! ## Dictionary lemmas -/

theorem hasKey_dictSetB_self (d : List (String × Bool)) (k : String) (v : Bool) :
    hasKey (dictSetB d k v) k = true := by
  unfold hasKey dictSetB
  by_cases c : d.any (fun kv => kv.1 == k) = true
  · simp only [c, if_true, List.any_map]
    have he : ((fun kv => kv.1 == k) ∘ fun kv : String × Bool =>
        if kv.1 == k then (kv.1, v) else kv) = fun kv : String × Bool => kv.1 == k := by
      funext kv
      by_cases h : kv.1 == k <;> simp [h, Function.comp]
    rw [he]
    exact c
  · simp only [Bool.not_eq_true] at c
    simp [c, List.any_append]

theorem hasKey_dictSetB_mono (d : List (String × Bool)) (k k2 : String) (v : Bool)
    (h : hasKey d k = true) : hasKey (dictSetB d k2 v) k = true := by
  unfold hasKey at *
  unfold dictSetB
  by_cases c : d.any (fun kv => kv.1 == k2) = true
  · simp only [c, if_true, List.any_map]
    have he : ((fun kv => kv.1 == k) ∘ fun kv : String × Bool =>
        if kv.1 == k2 then (kv.1, v) else kv) = fun kv : String × Bool => kv.1 == k := by
      funext kv
      by_cases h2 : kv.1 == k2 <;> simp [h2, Function.comp]
    rw [he]
    exact h
  · simp only [Bool.not_eq_true] at c
    simp [c, List.any_append, h]

theorem dictSetB_idem (d : List (String × Bool)) (k : String) :
    dictSetB (dictSetB d k true) k true = dictSetB d k true := by
  unfold dictSetB
  by_cases c : d.any (fun kv => kv.1 == k) = true
  · have hm : ((d.map fun kv : String × Bool => if kv.1 == k then (kv.1, true) else kv).any
        (fun kv => kv.1 == k)) = true := by
      rw [List.any_map]
      have he : ((fun kv => kv.1 == k) ∘ fun kv : String × Bool =>
          if kv.1 == k then (kv.1, true) else kv) = fun kv : String × Bool => kv.1 == k := by
        funext kv
        by_cases h : kv.1 == k <;> simp [h, Function.comp]
      rw [he]
      exact c
    simp only [c, if_true, hm, List.map_map]
    congr 1
    funext kv
    by_cases h : kv.1 == k <;> simp [h, Function.comp]
  · simp only [Bool.not_eq_true] at c
    have hall := List.any_eq_false.mp c
    have hm : ((d ++ [(k, true)]).any (fun kv => kv.1 == k)) = true := by
      simp [List.any_append]
    simp only [c, Bool.false_eq_true, if_false, hm, if_true, List.map_append]
    have h1 : (d.map fun kv : String × Bool => if kv.1 == k then (kv.1, true) else kv) = d := by
      have : ∀ kv ∈ d, (if kv.1 == k then (kv.1, true) else kv) = kv := by
        intro kv hkv
        have := hall kv hkv
        simp at this
        simp [this]
      calc (d.map fun kv : String × Bool => if kv.1 == k then (kv.1, true) else kv)
          = d.map id := List.map_congr_left this
        _ = d := List.map_id d
    rw [h1]
    simp

/-! ## Fold lemmas for `_analyze_file`'s main loop -/

theorem processMatch_code_organization (p : CPat) (t rp : String) (st : PStructure)
    (m : RMatch) :
    (RulesGenerator.processMatch p t rp st m).code_organization = st.code_organization := by
  unfold RulesGenerator.processMatch
  dsimp only
  by_cases ht : (t == "import") = true
  · rw [if_pos ht]
    cases firstModule (p.gdict m) <;> rfl
  · rw [if_neg (by simp [ht])]
    cases coalesceName (p.gdict m) with
    | none => rfl
    | some nm =>
      dsimp only
      by_cases h2 : (t == "class") = true
      · rw [if_pos h2]
      · rw [if_neg (by simp [h2])]

theorem processMatch_class_import (p : CPat) (rp : String) (st : PStructure) (m : RMatch) :
    (RulesGenerator.processMatch p "import" rp st m).class_patterns = st.class_patterns := by
  unfold RulesGenerator.processMatch
  dsimp only
  rw [if_pos (show (("import" == "import") = true) from rfl)]
  cases firstModule (p.gdict m) <;> rfl

theorem processMatch_function_import (p : CPat) (rp : String) (st : PStructure) (m : RMatch) :
    (RulesGenerator.processMatch p "import" rp st m).function_patterns = st.function_patterns := by
  unfold RulesGenerator.processMatch
  dsimp only
  rw [if_pos (show (("import" == "import") = true) from rfl)]
  cases firstModule (p.gdict m) <;> rfl

theorem processMatch_class_function (p : CPat) (rp : String) (st : PStructure) (m : RMatch) :
    (RulesGenerator.processMatch p "function" rp st m).class_patterns = st.class_patterns := by
  unfold RulesGenerator.processMatch
  dsimp only
  rw [if_neg (show ¬(("function" == "import") = true) by decide)]
  cases coalesceName (p.gdict m) with
  | none => rfl
  | some nm =>
    dsimp only
    rw [if_neg (show ¬(("function" == "class") = true) by decide)]

theorem processMatch_function_class (p : CPat) (rp : String) (st : PStructure) (m : RMatch) :
    (RulesGenerator.processMatch p "class" rp st m).function_patterns = st.function_patterns := by
  unfold RulesGenerator.processMatch
  dsimp only
  rw [if_neg (show ¬(("class" == "import") = true) by decide)]
  cases coalesceName (p.gdict m) with
  | none => rfl
  | some nm =>
    dsimp only
    rw [if_pos (show (("class" == "class") = true) from rfl)]

theorem processMatch_class_mem (p : CPat) (rp : String) (st : PStructure) (m : RMatch)
    (r : PRec) (h : r ∈ (RulesGenerator.processMatch p "class" rp st m).class_patterns) :
    r ∈ st.class_patterns ∨ r.type = "class" := by
  unfold RulesGenerator.processMatch at h
  dsimp only at h
  rw [if_neg (show ¬(("class" == "import") = true) by decide)] at h
  cases hc : coalesceName (p.gdict m) with
  | none => rw [hc] at h; exact Or.inl h
  | some nm =>
    rw [hc] at h
    dsimp only at h
    rw [if_pos (show (("class" == "class") = true) from rfl)] at h
    rcases List.mem_append.mp h with h2 | h2
    · exact Or.inl h2
    · right
      rcases List.mem_singleton.mp h2 with rfl
      rfl

theorem processMatch_function_mem (p : CPat) (rp : String) (st : PStructure) (m : RMatch)
    (r : PRec) (h : r ∈ (RulesGenerator.processMatch p "function" rp st m).function_patterns) :
    r ∈ st.function_patterns ∨ r.type = "function" := by
  unfold RulesGenerator.processMatch at h
  dsimp only at h
  rw [if_neg (show ¬(("function" == "import") = true) by decide)] at h
  cases hc : coalesceName (p.gdict m) with
  | none => rw [hc] at h; exact Or.inl h
  | some nm =>
    rw [hc] at h
    dsimp only at h
    rw [if_neg (show ¬(("function" == "class") = true) by decide)] at h
    rcases List.mem_append.mp h with h2 | h2
    · exact Or.inl h2
    · right
      rcases List.mem_singleton.mp h2 with rfl
      rfl

theorem processMatch_hasKey_mono (p : CPat) (t rp : String) (st : PStructure) (m : RMatch)
    (k : String) (h : hasKey st.dependencies k = true) :
    hasKey (RulesGenerator.processMatch p t rp st m).dependencies k = true := by
  unfold RulesGenerator.processMatch
  dsimp only
  by_cases ht : (t == "import") = true
  · rw [if_pos ht]
    cases firstModule (p.gdict m) with
    | none => exact h
    | some module => exact hasKey_dictSetB_mono _ _ _ _ h
  · rw [if_neg (by simp [ht])]
    cases coalesceName (p.gdict m) with
    | none => exact h
    | some nm =>
      dsimp only
      by_cases h2 : (t == "class") = true
      · rw [if_pos h2]; exact h
      · rw [if_neg (by simp [h2])]; exact h

theorem foldl_preserves_proj {α β : Type} (f : PStructure → α → PStructure)
    (g : PStructure → β) (h : ∀ s a, g (f s a) = g s) :
    ∀ (l : List α) (s : PStructure), g (List.foldl f s l) = g s := by
  intro l
  induction l with
  | nil => intro s; rfl
  | cons a t ih => intro s; rw [List.foldl_cons, ih, h]

theorem ppt_code_organization (p : CPat) (t rp content : String) (s : PStructure) :
    (RulesGenerator.processPatternType p t rp content s).code_organization =
      s.code_organization :=
  foldl_preserves_proj _ _ (processMatch_code_organization p t rp) _ s

theorem ppt_import_class (p : CPat) (rp content : String) (s : PStructure) :
    (RulesGenerator.processPatternType p "import" rp content s).class_patterns =
      s.class_patterns :=
  foldl_preserves_proj _ _ (processMatch_class_import p rp) _ s

theorem ppt_import_function (p : CPat) (rp content : String) (s : PStructure) :
    (RulesGenerator.processPatternType p "import" rp content s).function_patterns =
      s.function_patterns :=
  foldl_preserves_proj _ _ (processMatch_function_import p rp) _ s

theorem ppt_function_class (p : CPat) (rp content : String) (s : PStructure) :
    (RulesGenerator.processPatternType p "function" rp content s).class_patterns =
      s.class_patterns :=
  foldl_preserves_proj _ _ (processMatch_class_function p rp) _ s

theorem ppt_class_function (p : CPat) (rp content : String) (s : PStructure) :
    (RulesGenerator.processPatternType p "class" rp content s).function_patterns =
      s.function_patterns :=
  foldl_preserves_proj _ _ (processMatch_function_class p rp) _ s

theorem foldl_class_mem (p : CPat) (rp : String) :
    ∀ (ms : List RMatch) (s : PStructure) (r : PRec),
      r ∈ (List.foldl (RulesGenerator.processMatch p "class" rp) s ms).class_patterns →
      r ∈ s.class_patterns ∨ r.type = "class" := by
  intro ms
  induction ms with
  | nil => intro s r h; exact Or.inl h
  | cons a t ih =>
    intro s r h
    rw [List.foldl_cons] at h
    rcases ih _ r h with h2 | h2
    · exact processMatch_class_mem p rp s a r h2
    · exact Or.inr h2

theorem foldl_function_mem (p : CPat) (rp : String) :
    ∀ (ms : List RMatch) (s : PStructure) (r : PRec),
      r ∈ (List.foldl (RulesGenerator.processMatch p "function" rp) s ms).function_patterns →
      r ∈ s.function_patterns ∨ r.type = "function" := by
  intro ms
  induction ms with
  | nil => intro s r h; exact Or.inl h
  | cons a t ih =>
    intro s r h
    rw [List.foldl_cons] at h
    rcases ih _ r h with h2 | h2
    · exact processMatch_function_mem p rp s a r h2
    · exact Or.inr h2

theorem foldl_hasKey_mono (p : CPat) (t rp : String) :
    ∀ (ms : List RMatch) (s : PStructure) (k : String),
      hasKey s.dependencies k = true →
      hasKey (List.foldl (RulesGenerator.processMatch p t rp) s ms).dependencies k = true := by
  intro ms
  induction ms with
  | nil => intro s k h; exact h
  | cons a tl ih =>
    intro s k h
    rw [List.foldl_cons]
    exact ih _ k (processMatch_hasKey_mono p t rp s a k h)

theorem foldl_import_hasKey (p : CPat) (rp : String) :
    ∀ (ms : List RMatch) (s : PStructure) (m : RMatch), m ∈ ms →
      ∀ mod, firstModule (p.gdict m) = some mod →
      hasKey (List.foldl (RulesGenerator.processMatch p "import" rp) s ms).dependencies mod
        = true := by
  intro ms
  induction ms with
  | nil => intro s m h; cases h
  | cons a tl ih =>
    intro s m hm mod hmod
    rw [List.foldl_cons]
    rcases List.mem_cons.mp hm with h | h
    · subst h
      apply foldl_hasKey_mono
      unfold RulesGenerator.processMatch
      dsimp only
      rw [if_pos (show (("import" == "import") = true) from rfl), hmod]
      exact hasKey_dictSetB_self _ _ _
    · exact ih _ m h mod hmod

/-! ## Concrete inputs used by the claim theorems -/

/-- `const Foo = class {};` — a class expression binding only the `name2`
alias capture of the web class rule. -/
def c2content : String := "const Foo = class \x7b\x7d;"

/-- `public class Player : MonoBehaviour { void Update() {} }` -/
def csharpPlayer : String := "public class Player : MonoBehaviour \x7b void Update() \x7b\x7d \x7d"

def c7record : PRec := { type := "function", file := "src/m.py", name := some "foo", parameters := some "a, b" }

def unityCompRec : PRec := { type := "unity_component", file := "Player.cs", name := some "public class Player : MonoBehaviour" }

def unityLifeRec : PRec := { type := "unity_lifecycle", file := "Player.cs", name := some "void Update()" }

/-- The relative path the aggregator forms for a file. -/
def relPathOf (rel_root nm : String) : String :=
  if rel_root == "" then nm else rel_root ++ "/" ++ nm

/-- The structure updates of the configuration-file branch. -/
def configAppend (s : PStructure) (rp content : String) : PStructure :=
  { s with config_files := s.config_files ++ [rp], configurations := s.configurations ++ [(rp, content)] }

/-- The structure updates made for a code file before its content is read. -/
def codeFileSkeleton (s : PStructure) (rp lang : String) : PStructure :=
  { s with files := s.files ++ [rp], languages := bump s.languages lang }

/-- The directory-counter updates made for a code file before its content
is read. -/
def codeDirSkeleton (d : DirStats) (lang : String) : DirStats :=
  { d with total_files := d.total_files + 1, code_files := d.code_files + 1, languages := bump d.languages lang }

/-! ## Claim theorems -/

/-- C1: the spec claims that for `pages/blog/[id].tsx` the route-path rule
yields a `next_page` record from named captures `route` and `nested`, the
analysis completing without an escaping error. On the code, the
`next_page` rule matches the path but declares no named groups at all, so
`match.group('route')` raises; the error escapes `_analyze_web_patterns`
and `_analyze_file` (it is only caught by the aggregator's per-file
handler), and no `next_page` record is appended. -/
theorem C1_route_capture_missing :
    (rsearch nextPage.re "pages/blog/[id].tsx").isSome = true ∧
    nextPage.names = [] ∧
    RulesGenerator.analyze_file "" "pages/blog/[id].tsx" {} "typescript"
      = ({}, some "no such group route") :=
  ⟨by decide, rfl, by decide⟩

/-- C2: the spec claims the identifier coalescing falls back to alias
captures ending in a digit (`name2`, `name3`), so a web class-expression
match binding only `name2` still yields a record. On the code,
rules_generator.py:231 accepts only captures named exactly `name` or `n`
(and no rule declares a group `n`), so the match — which demonstrably
binds `name2 = "Foo"` — is dropped and the analysis emits no class record
at all. -/
theorem C2_alias_capture_dropped :
    (finditer classWeb.re c2content).map (fun m => classWeb.gdict m)
      = [[("name", none), ("base", none), ("name2", some "Foo"), ("base2", none), ("name3", none), ("base3", none)]] ∧
    coalesceName [("name", none), ("base", none), ("name2", some "Foo"), ("base2", none), ("name3", none), ("base3", none)] = none ∧
    RulesGenerator.analyze_file c2content "src/a.ts" {} "typescript" = ({}, none) :=
  ⟨by decide, by decide, by decide⟩

/-- C3: a traversed file with a non-code extension ending in `.json`,
`.ini` or `.conf` is appended to the config-files list, recorded as a
configuration entry with its raw content, and not run through the
analyzer — proved of the spec-intended reading of the mis-indented `elif`
(rules_generator.py:167, a Python syntax error as written): the exact
equality shows nothing else of the structure changes and only
`total_files` is counted. -/
theorem C3_config_branch_intent (rel_root : String) (s : PStructure) (d : DirStats)
    (f : FileEntry) (content : String)
    (hext : CODE_EXTENSIONS.contains (splitextLower f.name) = false)
    (hcfg : (endsWithStr f.name ".json" || endsWithStr f.name ".ini" ||
             endsWithStr f.name ".conf") = true)
    (hread : f.read = Except.ok content) :
    RulesGenerator.processFile rel_root (s, d) f
      = (configAppend s (relPathOf rel_root f.name) content,
         { d with total_files := d.total_files + 1 }) := by
  unfold RulesGenerator.processFile
  dsimp only
  rw [if_neg (show ¬(CODE_EXTENSIONS.contains (splitextLower f.name) = true) by rw [hext]; simp),
      if_pos hcfg, hread]
  rfl

theorem C3_config_branch_intent_witness :
    RulesGenerator.processFile "" ({}, {}) ⟨"settings.json", Except.ok "k=1"⟩
      = (configAppend {} "settings.json" "k=1", { total_files := 1 }) :=
  C3_config_branch_intent "" {} {} ⟨"settings.json", Except.ok "k=1"⟩ "k=1"
    (by decide) (by decide) rfl

/-- C4 counterexample: a code file whose read fails still appears in the
`files` list and in the `code_files` and language counters — entries
attributable to that file beyond `total_files` — refuting "contributes
nothing else to the resulting structure". -/
theorem C4_counterexample :
    (RulesGenerator.processFile "" ({}, {}) ⟨"a.py", Except.error "decode error"⟩).1.files
      = ["a.py"] ∧
    (RulesGenerator.processFile "" ({}, {}) ⟨"a.py", Except.error "decode error"⟩).2.code_files
      = 1 :=
  ⟨by decide, by decide⟩

/-- C4 as amended: the read error is absorbed inside the aggregator; the
file counts toward `total_files` and — because these updates happen before
the read attempt — also appears in the `files` list and the `code_files`
and per-language counters, but contributes nothing further: no code
content, no structural records (the exact equality shows every other field
unchanged). Aggregation continues with the remaining files. -/
theorem C4_read_error_behavior (rel_root : String) (s : PStructure) (d : DirStats)
    (f : FileEntry) (e : String)
    (hext : CODE_EXTENSIONS.contains (splitextLower f.name) = true)
    (hread : f.read = Except.error e) :
    RulesGenerator.processFile rel_root (s, d) f
      = (codeFileSkeleton s (relPathOf rel_root f.name)
           (get_language_from_ext (splitextLower f.name)),
         codeDirSkeleton d (get_language_from_ext (splitextLower f.name))) ∧
    ∀ pre post, RulesGenerator.analyze_project_structure rel_root (pre ++ f :: post)
      = List.foldl (RulesGenerator.processFile rel_root)
          (RulesGenerator.processFile rel_root
            (List.foldl (RulesGenerator.processFile rel_root) ({}, {}) pre) f) post := by
  constructor
  · unfold RulesGenerator.processFile
    dsimp only
    rw [if_pos hext, hread]
    rfl
  · intro pre post
    unfold RulesGenerator.analyze_project_structure
    rw [List.foldl_append, List.foldl_cons]

theorem C4_read_error_behavior_witness :
    RulesGenerator.processFile "" ({}, {}) ⟨"a.py", Except.error "decode error"⟩
      = (codeFileSkeleton {} "a.py" "python", codeDirSkeleton {} "python") :=
  (C4_read_error_behavior "" {} {} ⟨"a.py", Except.error "decode error"⟩ "decode error"
    (by decide) rfl).1

/-- C6: directory naming classification is total with fixed priority
(lowercase, uppercase, snake_case, kebab-case, mixed); a basename that is
neither `islower` nor `isupper` and contains an underscore is classified
`snake_case`, never `mixed`. -/
theorem C6_snake_case_priority (dir_name : String)
    (h1 : pyIslower dir_name = false) (h2 : pyIsupper dir_name = false)
    (h3 : strContainsChar dir_name '_' = true) :
    namePattern dir_name = "snake_case" ∧ namePattern dir_name ≠ "mixed" ∧
    ∀ nm2, namePattern nm2 = "lowercase" ∨ namePattern nm2 = "uppercase" ∨
      namePattern nm2 = "snake_case" ∨ namePattern nm2 = "kebab-case" ∨
      namePattern nm2 = "mixed" := by
  have hs : namePattern dir_name = "snake_case" := by
    unfold namePattern
    rw [if_neg (by simp [h1]), if_neg (by simp [h2]), if_pos h3]
  refine ⟨hs, by rw [hs]; decide, ?_⟩
  intro nm2
  unfold namePattern
  split
  · exact Or.inl rfl
  · split
    · exact Or.inr (Or.inl rfl)
    · split
      · exact Or.inr (Or.inr (Or.inl rfl))
      · split
        · exact Or.inr (Or.inr (Or.inr (Or.inl rfl)))
        · exact Or.inr (Or.inr (Or.inr (Or.inr rfl)))

theorem C6_snake_case_priority_witness :
    namePattern "My_Dir" = "snake_case" :=
  (C6_snake_case_priority "My_Dir" (by decide) (by decide) (by decide)).1

/-- C7: analyzing the Python file `def foo(a, b):\n    pass` yields
exactly one record — a function named `foo` with parameters `a, b` and the
file's relative path — and no class or import entries (exact equality with
a structure whose only non-empty list is that one function record). -/
theorem C7_python_function_scenario :
    RulesGenerator.analyze_file "def foo(a, b):\n    pass" "src/m.py" {} "python"
      = ({ function_patterns := [c7record] }, none) := by decide

theorem ppt_class_mem (p : CPat) (rp content : String) (s : PStructure) (r : PRec)
    (h : r ∈ (RulesGenerator.processPatternType p "class" rp content s).class_patterns) :
    r ∈ s.class_patterns ∨ r.type = "class" :=
  foldl_class_mem p rp (finditer p.re content) s r h

theorem ppt_function_mem (p : CPat) (rp content : String) (s : PStructure) (r : PRec)
    (h : r ∈ (RulesGenerator.processPatternType p "function" rp content s).function_patterns) :
    r ∈ s.function_patterns ∨ r.type = "function" :=
  foldl_function_mem p rp (finditer p.re content) s r h

theorem ppt_import_hasKey (p : CPat) (rp content : String) (s : PStructure) (m : RMatch)
    (hm : m ∈ finditer p.re content) (mod : String)
    (hmod : firstModule (p.gdict m) = some mod) :
    hasKey (RulesGenerator.processPatternType p "import" rp content s).dependencies mod
      = true :=
  foldl_import_hasKey p rp (finditer p.re content) s m hm mod hmod

/-- C5: the import pass updates only the dependency dict — keyed by the
first non-empty capture whose name starts with `module` — and the imports
list: the class-record and function-record lists (and the
code-organization list) are untouched; every resolvable import match
leaves its module present as a key; and re-inserting an already-present
key is a no-op on the dict, so a duplicate leaves the set unchanged. -/
theorem C5_imports_update_dependencies_only (p : CPat) (rel_path content : String)
    (s : PStructure) :
    (RulesGenerator.processPatternType p "import" rel_path content s).class_patterns
      = s.class_patterns ∧
    (RulesGenerator.processPatternType p "import" rel_path content s).function_patterns
      = s.function_patterns ∧
    (RulesGenerator.processPatternType p "import" rel_path content s).code_organization
      = s.code_organization ∧
    (∀ m ∈ finditer p.re content, ∀ mod, firstModule (p.gdict m) = some mod →
      hasKey (RulesGenerator.processPatternType p "import" rel_path content s).dependencies mod
        = true) ∧
    (∀ d k, dictSetB (dictSetB d k true) k true = dictSetB d k true) :=
  ⟨ppt_import_class p rel_path content s, ppt_import_function p rel_path content s,
   ppt_code_organization p "import" rel_path content s,
   fun m hm mod hmod => ppt_import_hasKey p rel_path content s m hm mod hmod,
   fun d k => dictSetB_idem d k⟩

theorem C5_imports_update_dependencies_only_witness :
    hasKey ((RulesGenerator.processPatternType importPython "import" "m.py" "import os" {}).dependencies) "os" = true :=
  (C5_imports_update_dependencies_only importPython "m.py" "import os" {}).2.2.2.1
    ((finditer importPython.re "import os").headD default) (by decide) "os" (by decide)

/-- For a C# file with no framework marker substring, `_analyze_file` runs
only the three construct-kind passes. -/
theorem analyze_file_csharp_no_marker (content path : String) (s : PStructure)
    (h : (strContains content "UnityEngine" || strContains content "MonoBehaviour" ||
          strContains content "ScriptableObject") = false) :
    RulesGenerator.analyze_file content path s "csharp"
      = (RulesGenerator.processPatternType functionSystem "function" path content
          (RulesGenerator.processPatternType classSystem "class" path content
            (RulesGenerator.processPatternType importSystem "import" path content s)), none) := by
  unfold RulesGenerator.analyze_file
  dsimp only
  rw [if_neg (show ¬((("csharp" == "typescript") || ("csharp" == "javascript")) = true) by decide)]
  unfold step
  dsimp only
  rw [if_neg (show ¬((("csharp" == "csharp") &&
        (strContains content "UnityEngine" || strContains content "MonoBehaviour" ||
         strContains content "ScriptableObject")) = true) by
      rw [show ("csharp" == "csharp") = true from rfl, Bool.true_and, h]; simp)]
  rfl

/-- C8: the C# file `public class Player : MonoBehaviour { void Update()
{} }` contains the `MonoBehaviour` marker, so the platform pass runs and
emits both the `unity_component` class record and the `unity_lifecycle`
function record for `Update`; a C# file containing none of the three
marker substrings gets no platform-bucket record — its code-organization
list is unchanged and every class/function record added by the analysis
has plain type `class`/`function`. -/
theorem C8_unity_marker_gate :
    ((RulesGenerator.analyze_file csharpPlayer "Player.cs" {} "csharp").1.class_patterns.contains unityCompRec = true ∧
     (RulesGenerator.analyze_file csharpPlayer "Player.cs" {} "csharp").1.function_patterns.contains unityLifeRec = true ∧
     (RulesGenerator.analyze_file csharpPlayer "Player.cs" {} "csharp").2 = none) ∧
    ∀ content path s,
      (strContains content "UnityEngine" || strContains content "MonoBehaviour" ||
       strContains content "ScriptableObject") = false →
      (RulesGenerator.analyze_file content path s "csharp").1.code_organization
        = s.code_organization ∧
      (RulesGenerator.analyze_file content path s "csharp").2 = none ∧
      (∀ r, r ∈ (RulesGenerator.analyze_file content path s "csharp").1.class_patterns →
        r ∈ s.class_patterns ∨ r.type = "class") ∧
      (∀ r, r ∈ (RulesGenerator.analyze_file content path s "csharp").1.function_patterns →
        r ∈ s.function_patterns ∨ r.type = "function") := by
  constructor
  · exact ⟨by decide, by decide, by decide⟩
  · intro content path s h
    rw [analyze_file_csharp_no_marker content path s h]
    refine ⟨?_, rfl, ?_, ?_⟩
    · rw [ppt_code_organization, ppt_code_organization, ppt_code_organization]
    · intro r hr
      rw [ppt_function_class] at hr
      rcases ppt_class_mem classSystem path content _ r hr with h2 | h2
      · rw [ppt_import_class] at h2
        exact Or.inl h2
      · exact Or.inr h2
    · intro r hr
      rcases ppt_function_mem functionSystem path content _ r hr with h2 | h2
      · rw [ppt_class_function, ppt_import_function] at h2
        exact Or.inl h2
      · exact Or.inr h2

theorem C8_unity_marker_gate_witness :
    (RulesGenerator.analyze_file "int x;" "a.cs" {} "csharp").1.code_organization
      = (({} : PStructure)).code_organization :=
  (C8_unity_marker_gate.2 "int x;" "a.cs" {} (by decide)).1

/-- C9: on identical inputs, the module-level analyzers of `analyzers.py`
and the `RulesGenerator` methods append exactly the same records in the
same order to the same lists: the duplicated web implementations are
textually identical, and the unity implementations agree because in the
serialized-field rule the positional captures 1 and 2 are exactly the
named captures `type` and `name`. -/
theorem C9_duplicated_analyzers_equal (content rel_path : String) (s : PStructure) :
    Analyzers.analyze_web_patterns content rel_path s
      = RulesGenerator.analyze_web_patterns content rel_path s ∧
    Analyzers.analyze_unity_patterns content rel_path s
      = RulesGenerator.analyze_unity_patterns content rel_path s :=
  ⟨rfl, rfl⟩

theorem truthy_ne_empty (g : Option String) (v : String) (h : truthy g = some v) :
    ¬(v = "") := by
  cases g with
  | none => cases h
  | some s =>
    unfold truthy at h
    dsimp only at h
    by_cases hs : (s == "") = true
    · rw [if_pos hs] at h; cases h
    · rw [if_neg hs] at h
      injection h with h2
      subst h2
      simpa using hs

theorem firstTruthy_ne_empty : ∀ (gs : List (Option String)) (v : String),
    firstTruthy gs = some v → ¬(v = "") := by
  intro gs
  induction gs with
  | nil => intro v h; cases h
  | cons g tl ih =>
    intro v h
    unfold firstTruthy at h
    cases hg : truthy g with
    | none =>
      rw [hg] at h
      dsimp only at h
      exact ih v h
    | some w =>
      rw [hg] at h
      dsimp only at h
      injection h with h2
      subst h2
      exact truthy_ne_empty g _ hg

theorem scanGroups_mem (cfg : AnalyzerConfig) (acc : List (String × String))
    (groups : List (Option String)) (nm d : String)
    (h : (nm, d) ∈ scanGroups cfg acc groups) :
    (nm, d) ∈ acc ∨ (¬(nm = "") ∧ cfg.ignored_keywords.contains (strLower nm) = false) := by
  unfold scanGroups at h
  cases hf : firstTruthy groups with
  | none =>
    rw [hf] at h
    dsimp only at h
    exact Or.inl h
  | some fn =>
    rw [hf] at h
    dsimp only at h
    by_cases hi : cfg.ignored_keywords.contains (strLower fn) = true
    · rw [if_pos hi] at h; exact Or.inl h
    · rw [if_neg hi] at h
      rcases List.mem_append.mp h with h2 | h2
      · exact Or.inl h2
      · have h3 := List.mem_singleton.mp h2
        have h4 : nm = fn := congrArg Prod.fst h3
        subst h4
        right
        refine ⟨firstTruthy_ne_empty groups nm hf, ?_⟩
        cases hb : cfg.ignored_keywords.contains (strLower nm) with
        | true => exact absurd hb hi
        | false => rfl

theorem foldl_scanGroups_mem (cfg : AnalyzerConfig) :
    ∀ (found : List (List (Option String))) (acc : List (String × String)) (nm d : String),
      (nm, d) ∈ List.foldl (scanGroups cfg) acc found →
      (nm, d) ∈ acc ∨ (¬(nm = "") ∧ cfg.ignored_keywords.contains (strLower nm) = false) := by
  intro found
  induction found with
  | nil => intro acc nm d h; exact Or.inl h
  | cons g tl ih =>
    intro acc nm d h
    rw [List.foldl_cons] at h
    rcases ih _ nm d h with h2 | h2
    · exact scanGroups_mem cfg acc g nm d h2
    · exact Or.inr h2

theorem scanPattern_mem (cfg : AnalyzerConfig) (content : String)
    (acc : List (String × String))
    (pp : String × (String → Except String (List (List (Option String))))) (nm d : String)
    (h : (nm, d) ∈ scanPattern cfg content acc pp) :
    (nm, d) ∈ acc ∨ (¬(nm = "") ∧ cfg.ignored_keywords.contains (strLower nm) = false) := by
  unfold scanPattern at h
  cases hp : pp.2 content with
  | error e =>
    rw [hp] at h
    dsimp only at h
    exact Or.inl h
  | ok found =>
    rw [hp] at h
    dsimp only at h
    exact foldl_scanGroups_mem cfg found acc nm d h

theorem foldl_scanPattern_mem (cfg : AnalyzerConfig) (content : String) :
    ∀ (pats : List (String × (String → Except String (List (List (Option String))))))
      (acc : List (String × String)) (nm d : String),
      (nm, d) ∈ List.foldl (scanPattern cfg content) acc pats →
      (nm, d) ∈ acc ∨ (¬(nm = "") ∧ cfg.ignored_keywords.contains (strLower nm) = false) := by
  intro pats
  induction pats with
  | nil => intro acc nm d h; exact Or.inl h
  | cons pp tl ih =>
    intro acc nm d h
    rw [List.foldl_cons] at h
    rcases ih _ nm d h with h2 | h2
    · exact scanPattern_mem cfg content acc pp nm d h2
    · exact Or.inr h2

/-- C10: `analyze_file_content` is total at its public interface: a binary
or non-code extension yields `([], 0)`; a failed read is absorbed by the
outer handler and yields `([], 0)`; a pattern whose scan raises
contributes nothing, the loop continuing with the remaining patterns; and
every returned function name is non-empty with a lowercase form outside
the ignored-keyword set. -/
theorem C10_analyze_file_content_total (cfg : AnalyzerConfig) (path : String)
    (read : Except String String) :
    (is_binary_file cfg path = true → analyze_file_content cfg path read = ([], 0)) ∧
    (∀ e, read = Except.error e → analyze_file_content cfg path read = ([], 0)) ∧
    (∀ content, read = Except.ok content →
      cfg.code_extensions.contains (splitextLower path) = false →
      analyze_file_content cfg path read = ([], 0)) ∧
    (∀ nm d, (nm, d) ∈ (analyze_file_content cfg path read).1 →
      ¬(nm = "") ∧ cfg.ignored_keywords.contains (strLower nm) = false) ∧
    (∀ acc nmx badp content e, badp content = Except.error e →
      scanPattern cfg content acc (nmx, badp) = acc) := by
  refine ⟨?_, ?_, ?_, ?_, ?_⟩
  · intro hb
    unfold analyze_file_content
    rw [if_pos hb]
  · intro e he
    unfold analyze_file_content
    by_cases hb : is_binary_file cfg path = true
    · rw [if_pos hb]
    · rw [if_neg hb, he]
  · intro content he hc
    unfold analyze_file_content
    by_cases hb : is_binary_file cfg path = true
    · rw [if_pos hb]
    · rw [if_neg hb, he]
      dsimp only
      rw [if_pos (show (!cfg.code_extensions.contains (splitextLower path)) = true by
        rw [hc]; rfl)]
  · intro nm d h
    unfold analyze_file_content at h
    by_cases hb : is_binary_file cfg path = true
    · rw [if_pos hb] at h
      simp at h
    · rw [if_neg hb] at h
      cases hr : read with
      | error e =>
        rw [hr] at h
        simp at h
      | ok content =>
        rw [hr] at h
        dsimp only at h
        by_cases hc : (!cfg.code_extensions.contains (splitextLower path)) = true
        · rw [if_pos hc] at h
          simp at h
        · rw [if_neg hc] at h
          dsimp only at h
          rcases foldl_scanPattern_mem cfg content cfg.function_patterns [] nm d h with h2 | h2
          · simp at h2
          · exact h2
  · intro acc nmx badp content e hbad
    unfold scanPattern
    dsimp only
    rw [hbad]

theorem C10_analyze_file_content_total_witness :
    analyze_file_content ⟨[".exe"], [".md"], [".py"], ["if"], []⟩ "m.md" (Except.ok "def foo(): pass") = ([], 0) :=
  (C10_analyze_file_content_total ⟨[".exe"], [".md"], [".py"], ["if"], []⟩ "m.md" (Except.ok "def foo(): pass")).1 (by decide)

end CF

